import Mathlib

/-!
Verification development for the kidney-stone detection pipeline in
`src/app.py` (class `KidneyStoneDetector` plus the report composition in
the `/predict` route).

The embedding keeps the OpenCV library boundary explicit:
`cv2.findContours` is a library call, so the functions that consume its
output (`analyze_segmentation`, `create_highlighted_image`) take the
extracted contour list as an input.  `cv2.contourArea` and `cv2.moments`
on a contour are the standard Green-theorem polygon formulas over the
closed integer polygon, which we transcribe exactly (over `ℚ`, which is
exact for every image size a float double can represent faithfully).
Python's `random.randint` is modelled by an explicit seed stream: it
errors exactly when the range is empty, and otherwise returns a value in
the inclusive range, which is all the code relies on.
-/

namespace Renalytics

/-- A 2-D integer point, as stored in an OpenCV contour. -/
abbrev Point := Int × Int

/-- A contour: the closed polygon returned by `cv2.findContours` for one
external region (sequence of integer vertices, implicitly closed). -/
abbrev Contour := List Point

/-- The cyclic successor pairing of a polygon's vertex list: each vertex
with its successor, the last wrapping around to the first. -/
def cyclicPairs (pts : Contour) : List (Point × Point) :=
  match pts with
  | [] => []
  | p :: _ => pts.zip (pts.tail ++ [p])

/-- Twice the signed area of the closed polygon (`a00` accumulated by
OpenCV `contourMoments`): the sum of the edge cross products
`x_i * y_{i+1} - x_{i+1} * y_i`. -/
def shoelace (pts : Contour) : Int :=
  (cyclicPairs pts).foldl
    (fun acc pq => acc + (pq.1.1 * pq.2.2 - pq.2.1 * pq.1.2)) 0

/-- `cv2.contourArea`: the absolute value of the Green-theorem signed
area, `|a00| / 2`. -/
def contourArea (pts : Contour) : ℚ :=
  (Int.natAbs (shoelace pts) : ℚ) / 2

/-- The `a10` accumulator of OpenCV `contourMoments`:
`Σ cross_i * (x_i + x_{i+1})`. -/
def m10acc (pts : Contour) : Int :=
  (cyclicPairs pts).foldl
    (fun acc pq =>
      acc + (pq.1.1 * pq.2.2 - pq.2.1 * pq.1.2) * (pq.1.1 + pq.2.1)) 0

/-- The `a01` accumulator of OpenCV `contourMoments`:
`Σ cross_i * (y_i + y_{i+1})`. -/
def m01acc (pts : Contour) : Int :=
  (cyclicPairs pts).foldl
    (fun acc pq =>
      acc + (pq.1.1 * pq.2.2 - pq.2.1 * pq.1.2) * (pq.1.2 + pq.2.2)) 0

/-- OpenCV `cv2.moments(contour)["m00"]`: `contourMoments` flips the sign
so that `m00 = |a00| * 0.5` (and leaves all moments zero when `a00` is
zero, which for integer vertices is exactly the `a00 = 0` case). -/
def m00 (pts : Contour) : ℚ :=
  (Int.natAbs (shoelace pts) : ℚ) / 2

/-- `cv2.moments(contour)["m10"]`: `a10 / 6`, carrying the same sign flip
as `m00`. -/
def m10 (pts : Contour) : ℚ :=
  (if shoelace pts < 0 then -1 else 1) * (m10acc pts : ℚ) / 6

/-- `cv2.moments(contour)["m01"]`: `a01 / 6`, with the same sign flip. -/
def m01 (pts : Contour) : ℚ :=
  (if shoelace pts < 0 then -1 else 1) * (m01acc pts : ℚ) / 6

/-- Python `int(x)`: truncation toward zero. -/
def intTrunc (q : ℚ) : Int :=
  if q < 0 then ⌈q⌉ else ⌊q⌋

/-- Lines 114-119 of `app.py`: the centroid of the largest contour,
`(int(M["m10"]/M["m00"]), int(M["m01"]/M["m00"]))` guarded by
`M["m00"] != 0`, with fallback `(0, 0)`. -/
def centroidOf (pts : Contour) : Point :=
  if m00 pts ≠ 0 then
    (intTrunc (m10 pts / m00 pts), intTrunc (m01 pts / m00 pts))
  else
    (0, 0)

/-- Python `max(contours, key=cv2.contourArea)` on `first :: rest`:
scan left to right keeping the current best, replacing it only when a
strictly larger area appears (so ties keep the earlier contour). -/
def maxByArea (first : Contour) (rest : List Contour) : Contour :=
  rest.foldl (fun best c => if contourArea best < contourArea c then c else best) first

/-- The largest contour of a non-empty list (`[]` maps to `[]`, unused). -/
def primaryOf (contours : List Contour) : Contour :=
  match contours with
  | [] => []
  | c :: cs => maxByArea c cs

/-- The result dictionary built by `analyze_segmentation`.  `center` is
`none` exactly when the `'center'` key is absent from the Python dict. -/
structure AnalysisResult where
  stone_detected : Bool
  size_pixels : Int
  location : String
  confidence : ℚ
  center : Option Point
deriving DecidableEq, Repr

/-- Lines 121-128 of `app.py`: anatomical banding of the centroid row
`cy` against the mask height (Python float division, exact over `ℚ`):
`cy < height / 3`, `cy < 2 * height / 3`, else. -/
def bandOf (cy : Int) (height : Nat) : String :=
  if (cy : ℚ) < (height : ℚ) / 3 then "Upper Pole"
  else if (cy : ℚ) < 2 * (height : ℚ) / 3 then "Mid-Kidney"
  else "Lower Pole"

/-- `KidneyStoneDetector.analyze_segmentation` (lines 94-136 of
`app.py`), with the `cv2.findContours` output passed in as `contours`,
the mask height (`mask.shape[0]`) as `height`, and the
`random.uniform(0.85, 0.98)` draw as `conf`. -/
def analyze_segmentation (contours : List Contour) (height : Nat)
    (conf : ℚ) : AnalysisResult :=
  match contours with
  | [] =>
    { stone_detected := false
      size_pixels := 0
      location := "None"
      confidence := 0
      center := none }
  | c :: cs =>
    let largest_contour := maxByArea c cs
    let area := contourArea largest_contour
    let ctr := centroidOf largest_contour
    { stone_detected := true
      size_pixels := intTrunc area
      location := bandOf ctr.2 height
      confidence := conf
      center := some ctr }

/-- Python `random.randint(lo, hi)` driven by an explicit seed stream:
it raises `ValueError` exactly when the inclusive range is empty and
otherwise returns some value in `[lo, hi]` (here: the next stream element
reduced into the range) together with the rest of the stream. -/
def randint (lo hi : Int) (s : List Nat) : Except String (Int × List Nat) :=
  if hi < lo then .error "ValueError: empty range for randrange()"
  else .ok (lo + (s.headD 0 : Int) % (hi - lo + 1), s.tail)

/-- One `cv2.ellipse(mask, (cx, cy), (radius, int(radius*0.8)), angle,
0, 360, 255, -1)` call recorded with its parameters. -/
structure Ellipse where
  center_x : Int
  center_y : Int
  major : Int
  minor : Int
  angle : Int
deriving DecidableEq, Repr

/-- Python `int(radius * 0.8)`.  For `radius` in `[8, 25]` the double
computation `radius * 0.8` never strays across an integer, so the value
is exactly `floor(4 * radius / 5)`. -/
def minorAxis (radius : Int) : Int :=
  4 * radius / 5

/-- The loop body of `generate_mock_segmentation` (lines 83-90 of
`app.py`): for each of the `k` stones draw `center_x` from
`randint(50, width - 50)`, `center_y` from `randint(50, height - 50)`,
`radius` from `randint(8, 25)` and the angle from `randint(0, 180)`,
recording the ellipse painted onto the mask; any empty `randint` range
aborts with the `ValueError`. -/
def genStones : Nat → Nat → Nat → List Nat → Except String (List Ellipse × List Nat)
  | 0, _, _, s => .ok ([], s)
  | k + 1, height, width, s =>
    match randint 50 ((width : Int) - 50) s with
    | .error msg => .error msg
    | .ok (center_x, s1) =>
      match randint 50 ((height : Int) - 50) s1 with
      | .error msg => .error msg
      | .ok (center_y, s2) =>
        match randint 8 25 s2 with
        | .error msg => .error msg
        | .ok (radius, s3) =>
          match randint 0 180 s3 with
          | .error msg => .error msg
          | .ok (ang, s4) =>
            match genStones k height width s4 with
            | .error msg => .error msg
            | .ok (rest, s5) =>
              .ok (⟨center_x, center_y, radius, minorAxis radius, ang⟩ :: rest, s5)

/-- The mask built by `generate_mock_segmentation`: a
`np.zeros(image_shape[:2], dtype=np.uint8)` buffer (single channel,
spatial dimensions of the input image) plus the ellipses painted on it. -/
structure Mask where
  height : Nat
  width : Nat
  ellipses : List Ellipse
deriving DecidableEq, Repr

/-- The value of mask pixel `(x, y)`: zero-initialised, then each
`cv2.ellipse(..., 255, -1)` call in order sets the pixels it covers to
255.  The rasterizer (which pixels a rotated ellipse covers) is the
OpenCV library's and is abstracted as `member`. -/
def maskVal (member : Ellipse → Nat → Nat → Bool) (m : Mask) (x y : Nat) : Nat :=
  m.ellipses.foldl (fun v e => if member e x y then 255 else v) 0

/-- `KidneyStoneDetector.generate_mock_segmentation` (lines 72-92 of
`app.py`): with the `random.random()` draw `r`, take the stone branch
when `r < 0.7`, draw `num_stones = randint(1, 3)` and paint that many
stones; otherwise return the all-background mask. -/
def generate_mock_segmentation (height width : Nat) (r : ℚ) (s : List Nat) :
    Except String Mask :=
  if r < 7 / 10 then
    match randint 1 3 s with
    | .error msg => .error msg
    | .ok (num_stones, s1) =>
      match genStones num_stones.toNat height width s1 with
      | .error msg => .error msg
      | .ok (es, _) => .ok ⟨height, width, es⟩
  else
    .ok ⟨height, width, []⟩

/-- Claim C2's banding rule, stated in the spec's own words: `cy <
height/3` gives Upper Pole, `height/3 <= cy < 2*height/3` gives
Mid-Kidney, and `cy >= 2*height/3` gives Lower Pole.  Kept separate from
`bandOf` (the code's rule) so the two can be compared. -/
def specBandOf (cy : Int) (height : Nat) : String :=
  if (cy : ℚ) < (height : ℚ) / 3 then "Upper Pole"
  else if (height : ℚ) / 3 ≤ (cy : ℚ) ∧ (cy : ℚ) < 2 * (height : ℚ) / 3 then
    "Mid-Kidney"
  else "Lower Pole"

lemma bandOf_eq_specBandOf (cy : Int) (height : Nat) :
    bandOf cy height = specBandOf cy height := by
  unfold bandOf specBandOf
  by_cases h1 : (cy : ℚ) < (height : ℚ) / 3
  · simp [h1]
  · by_cases h2 : (cy : ℚ) < 2 * (height : ℚ) / 3
    · simp [h1, h2, le_of_not_lt h1]
    · simp [h1, h2]

lemma contourArea_nonneg (c : Contour) : 0 ≤ contourArea c := by
  unfold contourArea
  positivity

lemma intTrunc_nonneg (q : ℚ) (h : 0 ≤ q) : 0 ≤ intTrunc q := by
  unfold intTrunc
  rw [if_neg (not_lt.mpr h)]
  exact Int.floor_nonneg.mpr h

lemma maxByArea_mem (first : Contour) (rest : List Contour) :
    maxByArea first rest ∈ first :: rest := by
  induction rest generalizing first with
  | nil => simp [maxByArea]
  | cons x xs ih =>
    have e : maxByArea first (x :: xs) =
        maxByArea (if contourArea first < contourArea x then x else first) xs := rfl
    rw [e]
    split_ifs with hc
    · rcases List.mem_cons.mp (ih x) with h | h <;> simp [h]
    · rcases List.mem_cons.mp (ih first) with h | h <;> simp [h]

lemma maxByArea_self_le (first : Contour) (rest : List Contour) :
    contourArea first ≤ contourArea (maxByArea first rest) := by
  induction rest generalizing first with
  | nil => simp [maxByArea]
  | cons x xs ih =>
    have e : maxByArea first (x :: xs) =
        maxByArea (if contourArea first < contourArea x then x else first) xs := rfl
    rw [e]
    split_ifs with hc
    · exact le_trans (le_of_lt hc) (ih x)
    · exact ih first

lemma maxByArea_le (rest : List Contour) :
    ∀ first y : Contour, y ∈ first :: rest →
      contourArea y ≤ contourArea (maxByArea first rest) := by
  induction rest with
  | nil =>
    intro first y hy
    rcases List.mem_cons.mp hy with h | h
    · subst h; simp [maxByArea]
    · simp at h
  | cons x xs ih =>
    intro first y hy
    have e : maxByArea first (x :: xs) =
        maxByArea (if contourArea first < contourArea x then x else first) xs := rfl
    rw [e]
    rcases List.mem_cons.mp hy with h | h
    · subst h
      split_ifs with hc
      · exact le_trans (le_of_lt hc) (maxByArea_self_le x xs)
      · exact maxByArea_self_le _ xs
    · rcases List.mem_cons.mp h with h' | h'
      · subst h'
        split_ifs with hc
        · exact maxByArea_self_le _ xs
        · exact le_trans (le_of_not_lt hc) (maxByArea_self_le first xs)
      · split_ifs with hc
        · exact ih x y (List.mem_cons_of_mem _ h')
        · exact ih first y (List.mem_cons_of_mem _ h')

/-- Claim C1: the AnalysisResult invariant.  When `stone_detected` is
false the result is all defaults (`size_pixels = 0`, `location = "None"`,
`confidence = 0.0`, no `center`), and the `center` field is present
exactly when `stone_detected` is true. -/
theorem c1_analysis_result_invariant (contours : List Contour) (height : Nat)
    (conf : ℚ) :
    ((analyze_segmentation contours height conf).center.isSome ↔
      (analyze_segmentation contours height conf).stone_detected = true) ∧
    ((analyze_segmentation contours height conf).stone_detected = false →
      (analyze_segmentation contours height conf).size_pixels = 0 ∧
      (analyze_segmentation contours height conf).location = "None" ∧
      (analyze_segmentation contours height conf).confidence = 0 ∧
      (analyze_segmentation contours height conf).center = none) := by
  cases contours with
  | nil => simp [analyze_segmentation]
  | cons c cs => simp [analyze_segmentation]

/-- Witness for C1 at the empty contour list. -/
theorem c1_analysis_result_invariant_witness :
    ((analyze_segmentation [] 10 0).center.isSome ↔
      (analyze_segmentation [] 10 0).stone_detected = true) ∧
    ((analyze_segmentation [] 10 0).stone_detected = false →
      (analyze_segmentation [] 10 0).size_pixels = 0 ∧
      (analyze_segmentation [] 10 0).location = "None" ∧
      (analyze_segmentation [] 10 0).confidence = 0 ∧
      (analyze_segmentation [] 10 0).center = none) :=
  c1_analysis_result_invariant [] 10 0

/-- Claim C2: for a non-empty mask, the reported location is the spec's
three-band classification of the primary region's integer centroid row
against the mask height (`cy < h/3` Upper, `h/3 <= cy < 2h/3` Mid,
`cy >= 2h/3` Lower). -/
theorem c2_location_bands (contours : List Contour) (height : Nat) (conf : ℚ)
    (hne : contours ≠ []) :
    (analyze_segmentation contours height conf).location =
      specBandOf (centroidOf (primaryOf contours)).2 height := by
  cases contours with
  | nil => exact absurd rfl hne
  | cons c cs => simp [analyze_segmentation, primaryOf, bandOf_eq_specBandOf]

/-- Witness for C2: a 20x20 square whose centroid row 10 lies in the
upper band of a height-300 mask. -/
theorem c2_location_bands_witness :
    ([[((0 : Int), (0 : Int)), (20, 0), (20, 20), (0, 20)]] ≠ ([] : List Contour)) ∧
    (analyze_segmentation [[((0 : Int), (0 : Int)), (20, 0), (20, 20), (0, 20)]] 300 0).location =
      specBandOf (centroidOf (primaryOf [[((0 : Int), (0 : Int)), (20, 0), (20, 20), (0, 20)]])).2 300 :=
  ⟨by decide, c2_location_bands [[((0 : Int), (0 : Int)), (20, 0), (20, 20), (0, 20)]] 300 0 (by decide)⟩

/-- Claim C3: for a non-empty contour list the primary region is one of
maximal contour area, `size_pixels` is that region's enclosed polygon
area converted to an integer, and it is non-negative. -/
theorem c3_primary_largest_area (contours : List Contour) (height : Nat)
    (conf : ℚ) (hne : contours ≠ []) :
    ∃ c ∈ contours,
      (∀ c' ∈ contours, contourArea c' ≤ contourArea c) ∧
      (analyze_segmentation contours height conf).size_pixels =
        intTrunc (contourArea c) ∧
      0 ≤ (analyze_segmentation contours height conf).size_pixels := by
  cases contours with
  | nil => exact absurd rfl hne
  | cons c cs =>
    refine ⟨maxByArea c cs, maxByArea_mem c cs,
      fun c' hc' => maxByArea_le cs c c' hc', ?_, ?_⟩
    · simp [analyze_segmentation]
    · simp only [analyze_segmentation]
      exact intTrunc_nonneg _ (contourArea_nonneg _)

/-- Witness for C3: two squares of areas 400 and 100; the 400-area one
is primary and `size_pixels` is 400. -/
theorem c3_primary_largest_area_witness :
    ([[((0 : Int), (0 : Int)), (20, 0), (20, 20), (0, 20)],
      [((100 : Int), (100 : Int)), (110, 100), (110, 110), (100, 110)]] ≠ ([] : List Contour)) ∧
    ∃ c ∈ [[((0 : Int), (0 : Int)), (20, 0), (20, 20), (0, 20)],
      [((100 : Int), (100 : Int)), (110, 100), (110, 110), (100, 110)]],
      (∀ c' ∈ [[((0 : Int), (0 : Int)), (20, 0), (20, 20), (0, 20)],
        [((100 : Int), (100 : Int)), (110, 100), (110, 110), (100, 110)]],
        contourArea c' ≤ contourArea c) ∧
      (analyze_segmentation [[((0 : Int), (0 : Int)), (20, 0), (20, 20), (0, 20)],
        [((100 : Int), (100 : Int)), (110, 100), (110, 110), (100, 110)]] 300 0).size_pixels =
        intTrunc (contourArea c) ∧
      0 ≤ (analyze_segmentation [[((0 : Int), (0 : Int)), (20, 0), (20, 20), (0, 20)],
        [((100 : Int), (100 : Int)), (110, 100), (110, 110), (100, 110)]] 300 0).size_pixels :=
  ⟨by decide, c3_primary_largest_area _ 300 0 (by decide)⟩

/-- Claim C8: when the primary region's zeroth moment is zero the
centroid falls back to `(0, 0)`; the analyzer still returns a result
(the degenerate case is handled internally, not surfaced). -/
theorem c8_degenerate_moment_fallback (contours : List Contour) (height : Nat)
    (conf : ℚ) (hne : contours ≠ []) (hdeg : m00 (primaryOf contours) = 0) :
    (analyze_segmentation contours height conf).center = some (0, 0) := by
  cases contours with
  | nil => exact absurd rfl hne
  | cons c cs =>
    simp only [primaryOf] at hdeg
    simp only [analyze_segmentation, centroidOf]
    rw [if_neg (by simpa using hdeg)]

/-- Witness for C8: a single-point contour has zero moments, and the
analyzer reports center `(0, 0)` for it rather than failing. -/
theorem c8_degenerate_moment_fallback_witness :
    ([[((5 : Int), (5 : Int))]] ≠ ([] : List Contour)) ∧
    m00 (primaryOf [[((5 : Int), (5 : Int))]]) = 0 ∧
    (analyze_segmentation [[((5 : Int), (5 : Int))]] 10 0).center = some (0, 0) :=
  ⟨by decide, by norm_num [m00, primaryOf, maxByArea, shoelace, cyclicPairs],
    c8_degenerate_moment_fallback [[((5 : Int), (5 : Int))]] 10 0 (by decide)
      (by norm_num [m00, primaryOf, maxByArea, shoelace, cyclicPairs])⟩

lemma randint_ok (lo hi : Int) (s : List Nat) (h : lo ≤ hi) :
    ∃ v s', randint lo hi s = .ok (v, s') ∧ lo ≤ v ∧ v ≤ hi := by
  refine ⟨lo + (s.headD 0 : Int) % (hi - lo + 1), s.tail, ?_, ?_, ?_⟩
  · unfold randint
    rw [if_neg (not_lt.mpr h)]
  · have h0 : 0 ≤ (s.headD 0 : Int) % (hi - lo + 1) :=
      Int.emod_nonneg _ (by omega)
    omega
  · have h1 : (s.headD 0 : Int) % (hi - lo + 1) < hi - lo + 1 :=
      Int.emod_lt_of_pos _ (by omega)
    omega

lemma randint_err (lo hi : Int) (s : List Nat) (h : hi < lo) :
    randint lo hi s = .error "ValueError: empty range for randrange()" := by
  unfold randint
  rw [if_pos h]

lemma genStones_ok (height width : Nat) (hh : 100 ≤ height) (hw : 100 ≤ width) :
    ∀ (k : Nat) (s : List Nat), ∃ es s',
      genStones k height width s = .ok (es, s') ∧ es.length = k ∧
      ∀ e ∈ es,
        50 ≤ e.center_x ∧ e.center_x ≤ (width : Int) - 50 ∧
        50 ≤ e.center_y ∧ e.center_y ≤ (height : Int) - 50 ∧
        8 ≤ e.major ∧ e.major ≤ 25 ∧ e.minor = 4 * e.major / 5 ∧
        0 ≤ e.angle ∧ e.angle ≤ 180 := by
  intro k
  induction k with
  | zero =>
    intro s
    exact ⟨[], s, rfl, rfl, by simp⟩
  | succ k ih =>
    intro s
    obtain ⟨cx, s1, e1, hcx1, hcx2⟩ := randint_ok 50 ((width : Int) - 50) s (by omega)
    obtain ⟨cy, s2, e2, hcy1, hcy2⟩ := randint_ok 50 ((height : Int) - 50) s1 (by omega)
    obtain ⟨rad, s3, e3, hr1, hr2⟩ := randint_ok 8 25 s2 (by omega)
    obtain ⟨ang, s4, e4, ha1, ha2⟩ := randint_ok 0 180 s3 (by omega)
    obtain ⟨rest, s5, e5, hlen, hprops⟩ := ih s4
    refine ⟨⟨cx, cy, rad, minorAxis rad, ang⟩ :: rest, s5, ?_, by simp [hlen], ?_⟩
    · simp only [genStones, e1, e2, e3, e4, e5]
    · intro e he
      rcases List.mem_cons.mp he with h | h
      · subst h
        exact ⟨hcx1, hcx2, hcy1, hcy2, hr1, hr2, rfl, ha1, ha2⟩
      · exact hprops e h

lemma foldl_binary (member : Ellipse → Nat → Nat → Bool) (x y : Nat)
    (es : List Ellipse) :
    ∀ v0 : Nat, v0 = 0 ∨ v0 = 255 →
      es.foldl (fun v e => if member e x y then 255 else v) v0 = 0 ∨
      es.foldl (fun v e => if member e x y then 255 else v) v0 = 255 := by
  induction es with
  | nil =>
    intro v0 h
    simpa using h
  | cons e es ih =>
    intro v0 h
    simp only [List.foldl_cons]
    apply ih
    split_ifs with hm
    · right; rfl
    · exact h

lemma maskVal_binary (member : Ellipse → Nat → Nat → Bool) (m : Mask)
    (x y : Nat) : maskVal member m x y = 0 ∨ maskVal member m x y = 255 :=
  foldl_binary member x y m.ellipses 0 (Or.inl rfl)

/-- Claim C6 (amended): for images at least 100 px in each dimension the
placeholder segmenter returns a mask of the input's spatial dimensions
whose pixels are binary (0 or 255 under any rasterizer); when the stone
branch `r < 0.7` is taken it paints 1 to 3 ellipses whose centers stay
50 px inside the borders, with major radii in `[8, 25]`, minor axis
`int(0.8 * major)` (the truncated value, not exactly `0.8 * major`) and
integer angle in `[0, 180]` inclusive; otherwise the mask is all
background. -/
theorem c6_mock_mask_shape (height width : Nat) (r : ℚ) (s : List Nat)
    (hh : 100 ≤ height) (hw : 100 ≤ width) :
    ∃ m : Mask, generate_mock_segmentation height width r s = .ok m ∧
      m.height = height ∧ m.width = width ∧
      (∀ member x y, maskVal member m x y = 0 ∨ maskVal member m x y = 255) ∧
      (r < 7 / 10 →
        1 ≤ m.ellipses.length ∧ m.ellipses.length ≤ 3 ∧
        ∀ e ∈ m.ellipses,
          50 ≤ e.center_x ∧ e.center_x ≤ (width : Int) - 50 ∧
          50 ≤ e.center_y ∧ e.center_y ≤ (height : Int) - 50 ∧
          8 ≤ e.major ∧ e.major ≤ 25 ∧ e.minor = 4 * e.major / 5 ∧
          0 ≤ e.angle ∧ e.angle ≤ 180) ∧
      (¬ r < 7 / 10 → m.ellipses = []) := by
  by_cases hr : r < 7 / 10
  · obtain ⟨n, s1, he, hn1, hn3⟩ := randint_ok 1 3 s (by norm_num)
    obtain ⟨es, s', he2, hlen, hprops⟩ :=
      genStones_ok height width hh hw n.toNat s1
    refine ⟨⟨height, width, es⟩, ?_, rfl, rfl,
      fun member x y => maskVal_binary member _ x y, ?_, fun h => absurd hr h⟩
    · unfold generate_mock_segmentation
      rw [if_pos hr]
      simp only [he, he2]
    · intro _
      have h1 : 1 ≤ es.length := by omega
      have h3 : es.length ≤ 3 := by omega
      exact ⟨h1, h3, hprops⟩
  · refine ⟨⟨height, width, []⟩, ?_, rfl, rfl,
      fun member x y => maskVal_binary member _ x y,
      fun h => absurd h hr, fun _ => rfl⟩
    unfold generate_mock_segmentation
    rw [if_neg hr]

/-- Witness for C6 at a 200x200 image with the stone branch taken. -/
theorem c6_mock_mask_shape_witness :
    100 ≤ 200 ∧
    (∃ m : Mask, generate_mock_segmentation 200 200 (1 / 2) [0, 0, 0, 1, 2] = .ok m ∧
      m.height = 200 ∧ m.width = 200 ∧
      (∀ member x y, maskVal member m x y = 0 ∨ maskVal member m x y = 255) ∧
      ((1 : ℚ) / 2 < 7 / 10 →
        1 ≤ m.ellipses.length ∧ m.ellipses.length ≤ 3 ∧
        ∀ e ∈ m.ellipses,
          50 ≤ e.center_x ∧ e.center_x ≤ (200 : Int) - 50 ∧
          50 ≤ e.center_y ∧ e.center_y ≤ (200 : Int) - 50 ∧
          8 ≤ e.major ∧ e.major ≤ 25 ∧ e.minor = 4 * e.major / 5 ∧
          0 ≤ e.angle ∧ e.angle ≤ 180) ∧
      (¬ (1 : ℚ) / 2 < 7 / 10 → m.ellipses = [])) :=
  ⟨by norm_num, c6_mock_mask_shape 200 200 (1 / 2) [0, 0, 0, 1, 2] (by norm_num) (by norm_num)⟩

/-- Counterexample for C6 as stated: a concrete run (200x200 image,
stone branch, seeds giving one stone with radius 9 and angle draw 180)
produces an ellipse whose minor axis is `int(9 * 0.8) = 7`, not
`0.8 * 9 = 7.2`, and whose rotation is 180 degrees, outside `[0, 180)`. -/
theorem c6_mock_mask_shape_counterexample :
    generate_mock_segmentation 200 200 0 [0, 0, 0, 1, 180] =
      .ok ⟨200, 200, [⟨50, 50, 9, 7, 180⟩]⟩ ∧
    ¬ (((7 : ℚ) = 8 / 10 * 9) ∧ (180 : Int) < 180) := by
  constructor
  · norm_num [generate_mock_segmentation, genStones, randint, minorAxis]
  · norm_num

/-- Claim C10: for any well-formed image with a dimension strictly
between 0 and 100 the segmenter, once the stone branch is taken, hits
`random.randint` with an empty range and raises `ValueError` instead of
returning a mask. -/
theorem c10_small_image_raises (height width : Nat) (r : ℚ) (s : List Nat)
    (hr : r < 7 / 10)
    (hdim : (0 < width ∧ width < 100) ∨ (0 < height ∧ height < 100)) :
    generate_mock_segmentation height width r s =
      .error "ValueError: empty range for randrange()" := by
  obtain ⟨n, s1, he, hn1, hn3⟩ := randint_ok 1 3 s (by norm_num)
  obtain ⟨k, hkk⟩ : ∃ k, n.toNat = k + 1 := ⟨n.toNat - 1, by omega⟩
  unfold generate_mock_segmentation
  rw [if_pos hr]
  simp only [he, hkk]
  by_cases hw : (width : Int) - 50 < 50
  · have h1 := randint_err 50 ((width : Int) - 50) s1 hw
    simp only [genStones, h1]
  · have hwle : 100 ≤ width := by omega
    have hhlt : (height : Int) - 50 < 50 := by
      rcases hdim with ⟨_, hlt⟩ | ⟨_, hlt⟩ <;> omega
    obtain ⟨cx, s2, e1, _, _⟩ :=
      randint_ok 50 ((width : Int) - 50) s1 (not_lt.mp hw)
    have h2 := randint_err 50 ((height : Int) - 50) s2 hhlt
    simp only [genStones, e1, h2]

/-- Witness for C10 at a 60x60 image with the stone branch taken. -/
theorem c10_small_image_raises_witness :
    ((0 : ℚ) < 7 / 10) ∧
    ((0 < 60 ∧ 60 < 100) ∨ (0 < 60 ∧ 60 < 100)) ∧
    generate_mock_segmentation 60 60 0 [0] =
      .error "ValueError: empty range for randrange()" :=
  ⟨by norm_num, Or.inl (by norm_num),
    c10_small_image_raises 60 60 0 [0] (by norm_num) (Or.inl (by norm_num))⟩

/-- Claim C4 (code evaluated at the failing input): on a well-formed
60x60 image, with the stone branch taken, the segmenter fails with the
unhandled `ValueError` (there is no structured `InvalidImage` error
anywhere in the code), contradicting "never raises for well-formed
input". -/
theorem c4_wellformed_input_raises :
    generate_mock_segmentation 60 60 0 [0] =
      .error "ValueError: empty range for randrange()" := by
  norm_num [generate_mock_segmentation, genStones, randint]

/-- A 3-channel raster image: pixel color at each coordinate. -/
abbrev Img := Nat → Nat → Nat × Nat × Nat

/-- The array handed to `create_highlighted_image`: either a grayscale
array or an RGB array (`len(shape) == 3 and shape[2] == 3`). -/
inductive RawImg where
  | gray (v : Nat → Nat → Nat)
  | rgb3 (v : Img)

/-- Lines 142-146 of `app.py`: `original_image.copy()` when the input is
already 3-channel, else `cv2.cvtColor(original_image,
cv2.COLOR_GRAY2RGB)` (which replicates the single channel). -/
def toThreeChannel : RawImg → Img
  | .rgb3 v => v
  | .gray v => fun x y => (v x y, v x y, v x y)

/-- The OpenCV drawing primitives used by the Annotator, abstracted over
their rasterization (each one consumes an image and returns the drawn
image; the pixel-level effect is the library's). -/
structure CvOps where
  fillPoly : Img → Contour → Nat × Nat × Nat → Img
  addWeighted : Img → ℚ → Img → ℚ → ℚ → Img
  drawContours : Img → Contour → Nat × Nat × Nat → Nat → Img
  arrowedLine : Img → Point → Point → Nat × Nat × Nat → Nat → Img
  putText : Img → String → Point → ℚ → Nat × Nat × Nat → Nat → Img

/-- A CvOps instance whose rasterizers leave the image unchanged, used
to instantiate closed statements about the call trace. -/
def idLib : CvOps :=
  ⟨fun i _ _ => i, fun i _ _ _ _ => i, fun i _ _ _ => i,
   fun i _ _ _ _ => i, fun i _ _ _ _ _ => i⟩

/-- One drawing call issued by the Annotator loop, with the parameters
that identify what is drawn where. -/
inductive DrawCall where
  | fillPoly (c : Contour)
  | addWeighted
  | outline (c : Contour)
  | arrow (tail tip : Point)
  | label (text : String) (pos : Point)
deriving DecidableEq, Repr

/-- The calls issued during one iteration of the `for contour in
contours` loop (lines 153-167 of `app.py`): highlight fill, 0.7/0.3
blend, outline, and — whenever the `'center'` key is present — the
pointer arrow toward `analysis_result['center']` and the "STONE" label,
with no check that this contour is the primary one. -/
def drawCallsFor (a : AnalysisResult) (c : Contour) : List DrawCall :=
  [.fillPoly c, .addWeighted, .outline c] ++
    (match a.center with
     | some ctr =>
       [.arrow (ctr.1 + 30, ctr.2 - 30) ctr, .label "STONE" (ctr.1 + 35, ctr.2 - 35)]
     | none => [])

/-- The image effect of one loop iteration: `overlay = highlighted.copy()`
then `cv2.fillPoly(overlay, [contour], (255, 100, 100))`, blend
`cv2.addWeighted(highlighted, 0.7, overlay, 0.3, 0)`, outline
`cv2.drawContours(..., (255, 0, 0), 2)`, and, when the center is
present, `cv2.arrowedLine` from `(cx+30, cy-30)` to `(cx, cy)` and
`cv2.putText("STONE", (cx+35, cy-35), ..., 0.6, (0, 255, 0), 2)`. -/
def annotateOne (lib : CvOps) (a : AnalysisResult) (img : Img) (c : Contour) : Img :=
  let overlay := lib.fillPoly img c (255, 100, 100)
  let img1 := lib.addWeighted img (7 / 10) overlay (3 / 10) 0
  let img2 := lib.drawContours img1 c (255, 0, 0) 2
  match a.center with
  | some ctr =>
    lib.putText
      (lib.arrowedLine img2 (ctr.1 + 30, ctr.2 - 30) ctr (0, 255, 0) 2)
      "STONE" (ctr.1 + 35, ctr.2 - 35) (6 / 10) (0, 255, 0) 2
  | none => img2

/-- One loop step carrying the image and the accumulated call trace. -/
def annotateStep (lib : CvOps) (a : AnalysisResult)
    (acc : Img × List DrawCall) (c : Contour) : Img × List DrawCall :=
  (annotateOne lib a acc.1 c, acc.2 ++ drawCallsFor a c)

/-- `KidneyStoneDetector.create_highlighted_image` (lines 138-169 of
`app.py`), with the `cv2.findContours` output passed in as `contours`.
Returns the drawn image, the trace of drawing calls, and the caller's
`original_image` buffer as it stands after the call: every in-place
OpenCV call in the source targets `highlighted` (a fresh copy or a fresh
`cvtColor` result) or `overlay` (a fresh copy), so the translation never
touches the input buffer. -/
def create_highlighted_image (lib : CvOps) (original_image : RawImg)
    (contours : List Contour) (analysis_result : AnalysisResult) :
    Img × List DrawCall × RawImg :=
  let highlighted := toThreeChannel original_image
  if analysis_result.stone_detected then
    let res := contours.foldl (annotateStep lib analysis_result) (highlighted, [])
    (res.1, res.2, original_image)
  else
    (highlighted, [], original_image)

lemma annotate_trace_eq (lib : CvOps) (a : AnalysisResult) :
    ∀ (contours : List Contour) (acc : Img × List DrawCall),
      (contours.foldl (annotateStep lib a) acc).2 =
        acc.2 ++ contours.flatMap (drawCallsFor a) := by
  intro contours
  induction contours with
  | nil => intro acc; simp
  | cons c cs ih =>
    intro acc
    simp only [List.foldl_cons, List.flatMap_cons, ih, annotateStep]
    rw [List.append_assoc]

/-- Claim C7: the Annotator leaves the caller's input buffer untouched,
and when `stone_detected` is false it performs no drawing call and
returns exactly the channel-converted original. -/
theorem c7_identity_when_not_detected (lib : CvOps) (original_image : RawImg)
    (contours : List Contour) (a : AnalysisResult) :
    (create_highlighted_image lib original_image contours a).2.2 = original_image ∧
    (a.stone_detected = false →
      (create_highlighted_image lib original_image contours a).1 =
        toThreeChannel original_image ∧
      (create_highlighted_image lib original_image contours a).2.1 = []) := by
  unfold create_highlighted_image
  split_ifs with h
  · exact ⟨rfl, fun hf => by rw [hf] at h; cases h⟩
  · exact ⟨rfl, fun _ => ⟨rfl, rfl⟩⟩

/-- Witness for C7 on an all-zero grayscale image with no regions. -/
theorem c7_identity_when_not_detected_witness :
    (create_highlighted_image idLib (RawImg.gray fun _ _ => 0) []
      (analyze_segmentation [] 10 0)).2.2 = RawImg.gray (fun _ _ => 0) ∧
    ((analyze_segmentation [] 10 0).stone_detected = false →
      (create_highlighted_image idLib (RawImg.gray fun _ _ => 0) []
        (analyze_segmentation [] 10 0)).1 =
        toThreeChannel (RawImg.gray fun _ _ => 0) ∧
      (create_highlighted_image idLib (RawImg.gray fun _ _ => 0) []
        (analyze_segmentation [] 10 0)).2.1 = []) :=
  c7_identity_when_not_detected idLib (RawImg.gray fun _ _ => 0) []
    (analyze_segmentation [] 10 0)

/-- Claim C5 (amended): when a stone is detected and the center is
present, the Annotator issues the pointer arrow and the label in EVERY
region's loop iteration, not only the primary region's; each such arrow
and label targets `analysis.center` (the primary centroid), so no arrow
ever points at a non-primary region's own centroid. -/
theorem c5_arrow_in_every_iteration (lib : CvOps) (original_image : RawImg)
    (contours : List Contour) (a : AnalysisResult) (ctr : Point)
    (hdet : a.stone_detected = true) (hc : a.center = some ctr) :
    (create_highlighted_image lib original_image contours a).2.1 =
      contours.flatMap (drawCallsFor a) ∧
    ∀ c ∈ contours, drawCallsFor a c =
      [.fillPoly c, .addWeighted, .outline c,
       .arrow (ctr.1 + 30, ctr.2 - 30) ctr,
       .label "STONE" (ctr.1 + 35, ctr.2 - 35)] := by
  constructor
  · unfold create_highlighted_image
    rw [if_pos (by simp [hdet])]
    simpa using annotate_trace_eq lib a contours (toThreeChannel original_image, [])
  · intro c _
    simp [drawCallsFor, hc]

/-- A 20x20 axis-aligned square region with centroid `(10, 10)`. -/
def squareA : Contour := [((0 : Int), (0 : Int)), (20, 0), (20, 20), (0, 20)]

/-- A 10x10 axis-aligned square region with centroid `(105, 105)`. -/
def squareB : Contour := [((100 : Int), (100 : Int)), (110, 100), (110, 110), (100, 110)]

/-- Witness for C5: one region, detected analysis with center `(10, 10)`. -/
theorem c5_arrow_in_every_iteration_witness :
    ((⟨true, 400, "Upper Pole", 9 / 10, some (10, 10)⟩ : AnalysisResult).stone_detected = true) ∧
    ((⟨true, 400, "Upper Pole", 9 / 10, some (10, 10)⟩ : AnalysisResult).center = some ((10 : Int), (10 : Int))) ∧
    ((create_highlighted_image idLib (RawImg.gray fun _ _ => 0) [squareA]
        ⟨true, 400, "Upper Pole", 9 / 10, some (10, 10)⟩).2.1 =
      [squareA].flatMap (drawCallsFor ⟨true, 400, "Upper Pole", 9 / 10, some (10, 10)⟩) ∧
    ∀ c ∈ [squareA], drawCallsFor (⟨true, 400, "Upper Pole", 9 / 10, some (10, 10)⟩ : AnalysisResult) c =
      [.fillPoly c, .addWeighted, .outline c,
       .arrow ((10 : Int) + 30, (10 : Int) - 30) (10, 10),
       .label "STONE" ((10 : Int) + 35, (10 : Int) - 35)]) :=
  ⟨rfl, rfl,
    c5_arrow_in_every_iteration idLib (RawImg.gray fun _ _ => 0) [squareA]
      ⟨true, 400, "Upper Pole", 9 / 10, some (10, 10)⟩ (10, 10) rfl rfl⟩

/-- Counterexample for C5 as stated: with two regions, only `squareA`
is primary (its centroid `(10, 10)` matches `analysis.center`; the
centroid of `squareB` is `(105, 105)`), yet the call trace contains TWO
pointer arrows — one is issued during the non-primary region's
iteration. -/
theorem c5_arrow_in_every_iteration_counterexample :
    analyze_segmentation [squareA, squareB] 300 (9 / 10) =
      ⟨true, 400, "Upper Pole", 9 / 10, some (10, 10)⟩ ∧
    centroidOf squareB = (105, 105) ∧
    ((105, 105) : Point) ≠ (10, 10) ∧
    (create_highlighted_image idLib (RawImg.gray fun _ _ => 0) [squareA, squareB]
      ⟨true, 400, "Upper Pole", 9 / 10, some (10, 10)⟩).2.1.countP
      (fun c => match c with | .arrow _ _ => true | _ => false) = 2 := by
  refine ⟨?_, ?_, by decide, by decide⟩
  · norm_num [analyze_segmentation, squareA, squareB, maxByArea, contourArea,
      shoelace, cyclicPairs, centroidOf, m00, m10, m01, m10acc, m01acc,
      intTrunc, bandOf]
  · norm_num [squareB, centroidOf, m00, m10, m01, m10acc, m01acc, shoelace,
      cyclicPairs, intTrunc]

/-- Python `f"{x:.1f}"` on the (non-negative) confidence percentage:
one digit after the decimal point.  Modelled as exact rational rounding
of `10 * x` to the nearest integer; this agrees with the CPython float
formatting on the values the code produces (the claims do not exercise
exact decimal ties, where IEEE round-half-even could differ). -/
def fmt1 (q : ℚ) : String :=
  toString (round (q * 10) / 10) ++ "." ++ toString (round (q * 10) % 10).natAbs

/-- The fixed text of the detected template up to the interpolated
confidence percentage (lines 492-503 of `app.py`, after `.strip()`;
interior lines keep the 12-space indentation of the f-string source). -/
def reportHead : String :=
  "Analysis completed successfully. A kidney stone has been detected in the submitted image.\n            \n            Key Findings:\n            • Stone presence: Confirmed with "

/-- Fixed text between the confidence percentage and the size. -/
def reportMid1 : String :=
  "% confidence\n            • Estimated size: "

/-- Fixed text between the size and the location. -/
def reportMid2 : String :=
  " pixels in area\n            • Anatomical location: "

/-- The blank line (with the f-string indentation) before the closing
recommendation block. -/
def reportGap : String :=
  "\n            \n            "

/-- The closing block of the detected template: the referral
recommendation followed by the disclaimer note. -/
def reportEnding : String :=
  "Recommendation: Please consult with a qualified urologist or radiologist for professional medical interpretation and treatment planning.\n            \n            Note: This AI analysis is for educational purposes and should not replace professional medical diagnosis."

/-- The wording of the disclaimer shared by both templates. -/
def disclaimerNote : String :=
  "should not replace professional medical diagnosis"

/-- The detected report of the `/predict` route (lines 490-503 of
`app.py`): the f-string template interpolating
`{confidence_pct:.1f}`, `{analysis_result['size_pixels']}` and
`{analysis_result['location']}`. -/
def detected_report (a : AnalysisResult) : String :=
  reportHead ++ fmt1 (a.confidence * 100) ++ reportMid1 ++
    toString a.size_pixels ++ reportMid2 ++ a.location ++
    (reportGap ++ reportEnding)

/-- The fixed not-detected report (lines 504-512 of `app.py`, after
`.strip()`; note the trailing space after `diagnosis.` kept from the
source). -/
def not_detected_report : String :=
  "Analysis completed successfully. No kidney stones were detected in the submitted image.\n            \n            The AI system did not identify any significant abnormalities consistent with kidney stone presence in this image.\n            \n            Note: This AI analysis is for educational purposes and should not replace professional medical diagnosis. \n            If you have symptoms or concerns, please consult with a healthcare professional."

/-- The report composition of the `/predict` route (lines 489-512 of
`app.py`): one of two fixed templates, selected by `stone_detected`. -/
def compose_report (a : AnalysisResult) : String :=
  if a.stone_detected then detected_report a else not_detected_report

/-- `t` occurs as a substring of `s`, witnessed by an explicit split. -/
def ContainsSub (s t : String) : Prop :=
  ∃ p q, s = p ++ t ++ q

lemma containsSub_append_left (s t u : String) (h : ContainsSub t u) :
    ContainsSub (s ++ t) u := by
  obtain ⟨p, q, hpq⟩ := h
  exact ⟨s ++ p, q, by rw [hpq]; simp [String.append_assoc]⟩

set_option maxRecDepth 16000 in
lemma reportEnding_contains_disclaimer : ContainsSub reportEnding disclaimerNote :=
  ⟨"Recommendation: Please consult with a qualified urologist or radiologist for professional medical interpretation and treatment planning.\n            \n            Note: This AI analysis is for educational purposes and ",
   ".", rfl⟩

set_option maxRecDepth 16000 in
lemma not_detected_contains_disclaimer :
    ContainsSub not_detected_report disclaimerNote :=
  ⟨"Analysis completed successfully. No kidney stones were detected in the submitted image.\n            \n            The AI system did not identify any significant abnormalities consistent with kidney stone presence in this image.\n            \n            Note: This AI analysis is for educational purposes and ",
   ". \n            If you have symptoms or concerns, please consult with a healthcare professional.", rfl⟩

set_option maxRecDepth 16000 in
lemma not_detected_contains_reassurance :
    ContainsSub not_detected_report
      "did not identify any significant abnormalities" :=
  ⟨"Analysis completed successfully. No kidney stones were detected in the submitted image.\n            \n            The AI system ",
   " consistent with kidney stone presence in this image.\n            \n            Note: This AI analysis is for educational purposes and should not replace professional medical diagnosis. \n            If you have symptoms or concerns, please consult with a healthcare professional.",
   rfl⟩

/-- Claim C9: the report is one of two fixed templates selected by
`stone_detected`.  The detected one interpolates the confidence
percentage to one decimal place, the exact `size_pixels` and `location`
strings, and ends with the referral recommendation followed by the
disclaimer; the not-detected one carries the reassurance note; both
contain the disclaimer that the output is no substitute for
professional diagnosis. -/
theorem c9_report_two_templates (a : AnalysisResult) :
    (a.stone_detected = true →
      compose_report a =
        reportHead ++ fmt1 (a.confidence * 100) ++ reportMid1 ++
          toString a.size_pixels ++ reportMid2 ++ a.location ++
          (reportGap ++ reportEnding) ∧
      (∃ p, compose_report a = p ++ reportEnding) ∧
      ContainsSub (compose_report a) disclaimerNote) ∧
    (a.stone_detected = false →
      compose_report a = not_detected_report ∧
      ContainsSub (compose_report a) "did not identify any significant abnormalities" ∧
      ContainsSub (compose_report a) disclaimerNote) ∧
    (∃ k : Int, ∃ d : Nat,
      fmt1 (a.confidence * 100) = toString k ++ "." ++ toString d ∧ d < 10) := by
  refine ⟨?_, ?_, ?_⟩
  · intro hdet
    have hc : compose_report a = detected_report a := by
      simp [compose_report, hdet]
    have hend : compose_report a =
        (reportHead ++ fmt1 (a.confidence * 100) ++ reportMid1 ++
          toString a.size_pixels ++ reportMid2 ++ a.location ++ reportGap) ++
          reportEnding := by
      rw [hc]
      simp [detected_report, String.append_assoc]
    refine ⟨by rw [hc]; rfl, ⟨_, hend⟩, ?_⟩
    rw [hend]
    exact containsSub_append_left _ _ _ reportEnding_contains_disclaimer
  · intro hnot
    have hc : compose_report a = not_detected_report := by
      simp [compose_report, hnot]
    rw [hc]
    exact ⟨rfl, not_detected_contains_reassurance, not_detected_contains_disclaimer⟩
  · refine ⟨round (a.confidence * 100 * 10) / 10,
      (round (a.confidence * 100 * 10) % 10).natAbs, rfl, ?_⟩
    have h0 : 0 ≤ round (a.confidence * 100 * 10) % 10 :=
      Int.emod_nonneg _ (by norm_num)
    have h1 : round (a.confidence * 100 * 10) % 10 < 10 :=
      Int.emod_lt_of_pos _ (by norm_num)
    omega

/-- Witness for C9 at a concrete detected AnalysisResult. -/
theorem c9_report_two_templates_witness :
    ((⟨true, 400, "Upper Pole", 9 / 10, some (10, 10)⟩ : AnalysisResult).stone_detected = true →
      compose_report ⟨true, 400, "Upper Pole", 9 / 10, some (10, 10)⟩ =
        reportHead ++ fmt1 ((9 : ℚ) / 10 * 100) ++ reportMid1 ++
          toString (400 : Int) ++ reportMid2 ++ "Upper Pole" ++
          (reportGap ++ reportEnding) ∧
      (∃ p, compose_report ⟨true, 400, "Upper Pole", 9 / 10, some (10, 10)⟩ = p ++ reportEnding) ∧
      ContainsSub (compose_report ⟨true, 400, "Upper Pole", 9 / 10, some (10, 10)⟩) disclaimerNote) ∧
    ((⟨true, 400, "Upper Pole", 9 / 10, some (10, 10)⟩ : AnalysisResult).stone_detected = false →
      compose_report ⟨true, 400, "Upper Pole", 9 / 10, some (10, 10)⟩ = not_detected_report ∧
      ContainsSub (compose_report ⟨true, 400, "Upper Pole", 9 / 10, some (10, 10)⟩)
        "did not identify any significant abnormalities" ∧
      ContainsSub (compose_report ⟨true, 400, "Upper Pole", 9 / 10, some (10, 10)⟩) disclaimerNote) ∧
    (∃ k : Int, ∃ d : Nat,
      fmt1 ((9 : ℚ) / 10 * 100) = toString k ++ "." ++ toString d ∧ d < 10) :=
  c9_report_two_templates ⟨true, 400, "Upper Pole", 9 / 10, some (10, 10)⟩

end Renalytics
